import Mathlib

/-!
Shallow embedding of the ai-articulation-therapy pipeline and proofs about
its specification claims.

Embedded source files:
- `llama_model.py`: the singleton `LlamaModelManager` (construction,
  cleanup, generate), modelled as an explicit state machine that keeps the
  Python distinction between class attributes (`cls._model`,
  `cls._model_path`, `cls._instance`) and instance attributes (the
  `self._model = ...` assignments in `__init__` create entries in the
  instance dictionary that shadow the class attributes).
- `process_text.py`: `load_model`, `generate_ipa`,
  `evaluate_transcriptions`, `analyze_articulation_errors`,
  `evaluate_soda_analyses`, `generate_soda_summary`.
- `app.py`: `process_inputs`.

External collaborators (the llama engine, whisper transcription and the
CPython `json` library) are modelled as oracles/parameters; Python strings
are lists of characters.
-/

/-- Python strings are modelled as lists of characters. -/
abbrev Str := List Char

/-- Whitespace characters removed by Python `str.strip()`. -/
def isPySpace (c : Char) : Bool :=
  c = ' ' || c = '\t' || c = '\n' || c = '\r' || c = Char.ofNat 11 || c = Char.ofNat 12

/-- Python `str.strip()`: drop leading and trailing whitespace. -/
def pyStrip (s : Str) : Str :=
  ((s.dropWhile isPySpace).reverse.dropWhile isPySpace).reverse

/-- Index of the first occurrence of `sep` in `s` (Python `str.find` for a
nonempty separator), `none` when `sep` does not occur. -/
def findSub (sep : Str) : Str → Option Nat
  | [] => if sep.isPrefixOf ([] : Str) then some 0 else none
  | c :: t => if sep.isPrefixOf (c :: t) then some 0 else (findSub sep t).map (· + 1)

theorem isPrefixOf_len : ∀ (p s : Str), p.isPrefixOf s = true → p.length ≤ s.length
  | [], _, _ => by simp
  | a :: p, [], h => by simp [List.isPrefixOf] at h
  | a :: p, b :: s, h => by
    simp only [List.isPrefixOf, Bool.and_eq_true] at h
    simp only [List.length_cons]
    exact Nat.succ_le_succ (isPrefixOf_len p s h.2)

theorem findSub_le (sep : Str) : ∀ (s : Str) (i : Nat),
    findSub sep s = some i → i + sep.length ≤ s.length := by
  intro s
  induction s with
  | nil =>
    intro i h
    unfold findSub at h
    by_cases hp : sep.isPrefixOf ([] : Str)
    · have hsep : sep = [] := by
        cases sep with
        | nil => rfl
        | cons a t => simp [List.isPrefixOf] at hp
      rw [if_pos hp] at h
      cases h
      simp [hsep]
    · rw [if_neg hp] at h
      cases h
  | cons c t ih =>
    intro i h
    unfold findSub at h
    by_cases hp : sep.isPrefixOf (c :: t)
    · rw [if_pos hp] at h
      cases h
      simpa using isPrefixOf_len sep (c :: t) hp
    · rw [if_neg hp] at h
      rcases Option.map_eq_some'.mp h with ⟨j, hj, hij⟩
      have := ih j hj
      simp only [List.length_cons]
      omega

/-- Fuel-indexed worker for Python `str.split(sep)`. -/
def pySplitAux (sep : Str) : Nat → Str → List Str
  | 0, s => [s]
  | fuel + 1, s =>
    match findSub sep s with
    | none => [s]
    | some i => s.take i :: pySplitAux sep fuel (s.drop (i + sep.length))

/-- Python `str.split(sep)` for a nonempty separator (an empty separator
raises in Python and never occurs in the embedded code). -/
def pySplit (sep s : Str) : List Str :=
  if sep = [] then [s] else pySplitAux sep (s.length + 1) s

theorem sep_length_pos {sep : Str} (hsep : sep ≠ []) : 1 ≤ sep.length := by
  cases sep with
  | nil => exact absurd rfl hsep
  | cons a t => simp

theorem pySplitAux_congr (sep : Str) (hsep : sep ≠ []) :
    ∀ (f₁ : Nat) (s : Str) (f₂ : Nat), s.length < f₁ → s.length < f₂ →
      pySplitAux sep f₁ s = pySplitAux sep f₂ s := by
  intro f₁
  induction f₁ with
  | zero =>
    intro s f₂ h1
    omega
  | succ n ih =>
    intro s f₂ h1 h2
    cases f₂ with
    | zero => omega
    | succ m =>
      simp only [pySplitAux]
      cases hf : findSub sep s with
      | none => rfl
      | some i =>
        have hle := findSub_le sep s i hf
        have hs1 := sep_length_pos hsep
        have hd : (s.drop (i + sep.length)).length < s.length := by
          simp only [List.length_drop]
          omega
        simp only []
        rw [ih (s.drop (i + sep.length)) m (by omega) (by omega)]

theorem pySplit_cons (sep pre rest : Str) (hsep : sep ≠ [])
    (h : findSub sep (pre ++ sep ++ rest) = some pre.length) :
    pySplit sep (pre ++ sep ++ rest) = pre :: pySplit sep rest := by
  unfold pySplit
  rw [if_neg hsep, if_neg hsep]
  have htake : (pre ++ sep ++ rest).take pre.length = pre := by
    rw [List.append_assoc]
    exact List.take_left pre (sep ++ rest)
  have hdrop : (pre ++ sep ++ rest).drop (pre.length + sep.length) = rest := by
    have hd : (pre ++ sep ++ rest).drop (pre ++ sep).length = rest :=
      List.drop_left (pre ++ sep) rest
    simp only [List.length_append] at hd
    exact hd
  have hs1 := sep_length_pos hsep
  have hlt : rest.length < (pre ++ sep ++ rest).length := by
    simp only [List.length_append]
    omega
  simp only [pySplitAux, h]
  rw [htake, hdrop,
    pySplitAux_congr sep hsep ((pre ++ sep ++ rest).length) rest (rest.length + 1)
      hlt (by omega)]
  simp only [pySplitAux]

theorem pySplit_of_none (sep s : Str) (hsep : sep ≠ []) (h : findSub sep s = none) :
    pySplit sep s = [s] := by
  unfold pySplit
  rw [if_neg hsep]
  simp only [pySplitAux, h]

/-- Python `str.find` with the `-1` not-found sentinel. -/
def pyFind (sep s : Str) : Int :=
  match findSub sep s with
  | some i => (i : Int)
  | none => -1

/-- All start indices at which `sep` occurs in `s`. -/
def subOccurrences (sep s : Str) : List Nat :=
  (List.range (s.length + 1)).filter (fun i => sep.isPrefixOf (s.drop i))

/-- Python `str.rfind`: index of the last occurrence, `-1` when absent. -/
def pyRFind (sep s : Str) : Int :=
  match (subOccurrences sep s).getLast? with
  | some i => (i : Int)
  | none => -1

/-- Python slice `s[a:b]` for nonnegative indices. -/
def pySlice (s : Str) (a b : Int) : Str :=
  (s.drop a.toNat).take (b.toNat - a.toNat)

/-- Python `sep in s`. -/
def hasSub (sep s : Str) : Bool :=
  (findSub sep s).isSome

/-- Python `str.count(sep)`: non-overlapping occurrence count. -/
def pyCount (sep s : Str) : Nat :=
  (pySplit sep s).length - 1

/-- Python `str.strip(chars)` for a set of characters. -/
def pyStripChars (cs : Str) (s : Str) : Str :=
  ((s.dropWhile (cs.contains ·)).reverse.dropWhile (cs.contains ·)).reverse

/-- Worker for `re.sub(r'\s+', ' ', text)`: each maximal whitespace run
becomes one space; the flag records whether the previous character was
part of a whitespace run. -/
def collapseWsAux : Bool → Str → Str
  | _, [] => []
  | prev, c :: rest =>
    if isPySpace c then
      if prev then collapseWsAux true rest else ' ' :: collapseWsAux true rest
    else c :: collapseWsAux false rest

/-- `process_text.clean_text`: collapse whitespace runs and strip, empty
input giving the empty string. -/
def clean_text (text : Str) : Str :=
  if text = [] then [] else pyStrip (collapseWsAux false text)

/-- Python exception kinds raised by the embedded code. -/
inductive PyErr
  | valueError
  | typeError
  | indexError
  | keyError
  | attributeError
deriving DecidableEq

/-- A loaded `llama_cpp.Llama` engine instance: the file it was loaded from
and the sequence number of the constructor call that created it. -/
structure LlamaModel where
  path : Str
  loadId : Nat
deriving DecidableEq

/-- Instance dictionary of one `LlamaModelManager` object. The outer
`Option` is presence of the instance attribute (absent means lookup falls
through to the class attribute); the inner `Option` is the Python value
(`None` or an actual model / path). -/
structure InstAttrs where
  model : Option (Option LlamaModel) := none
  modelPath : Option (Option Str) := none
deriving DecidableEq

/-- Class-level state of `LlamaModelManager` together with the store of all
created instances (an instance is named by its index in `insts`).
`loadSeq` numbers successive `Llama(...)` constructor calls so that the
load-success oracle can be consulted per attempt. -/
structure MgrState where
  clsInstance : Option Nat := none
  clsModel : Option LlamaModel := none
  clsModelPath : Option Str := none
  insts : List InstAttrs := []
  loadSeq : Nat := 0
deriving DecidableEq

/-- Fresh interpreter state: no instance, class attributes `None`. -/
def mgrInit : MgrState := {}

/-- Observable resource effects of one operation: `loads` counts
`Llama(...)` constructions, `releases` counts executions of the cleanup
body that actually frees the engine, `cleanups` counts `cleanup()` calls,
`engineCalls` counts `create_completion` invocations. -/
structure Effects where
  loads : Nat := 0
  releases : Nat := 0
  cleanups : Nat := 0
  engineCalls : Nat := 0
deriving DecidableEq

def Effects.add (a b : Effects) : Effects :=
  ⟨a.loads + b.loads, a.releases + b.releases, a.cleanups + b.cleanups,
    a.engineCalls + b.engineCalls⟩

/-- Result of one manager operation: successor state, effects, value. -/
structure Out (α : Type) where
  st : MgrState
  eff : Effects
  res : α
deriving DecidableEq

/-- Python attribute lookup `self._model`: the instance dictionary first,
then the class attribute. -/
def attrModel (s : MgrState) (i : Nat) : Option LlamaModel :=
  match s.insts[i]? with
  | some a =>
    match a.model with
    | some v => v
    | none => s.clsModel
  | none => s.clsModel

/-- Python attribute lookup `self._model_path`. -/
def attrPath (s : MgrState) (i : Nat) : Option Str :=
  match s.insts[i]? with
  | some a =>
    match a.modelPath with
    | some v => v
    | none => s.clsModelPath
  | none => s.clsModelPath

/-- Set the instance attribute `self._model` of instance `i`. -/
def setModelAttr (s : MgrState) (i : Nat) (v : Option LlamaModel) : MgrState :=
  match s.insts[i]? with
  | some a => { s with insts := s.insts.set i { a with model := some v } }
  | none => s

/-- Set the instance attribute `self._model_path` of instance `i`. -/
def setPathAttr (s : MgrState) (i : Nat) (v : Option Str) : MgrState :=
  match s.insts[i]? with
  | some a => { s with insts := s.insts.set i { a with modelPath := some v } }
  | none => s

/-- `LlamaModelManager.__new__`: create the singleton instance when
`cls._instance` is `None`, then return `cls._instance`. -/
def newOp (s : MgrState) : MgrState × Nat :=
  match s.clsInstance with
  | some i => (s, i)
  | none =>
    ({ s with insts := s.insts ++ [{}], clsInstance := some s.insts.length },
      s.insts.length)

/-- `LlamaModelManager.__init__`: when `self._model is None` or
`self._model_path != model_path`, construct `Llama(...)`; on success set
the instance attributes `_model` and `_model_path`; on failure set the
instance attribute `_model` to `None` (leaving `_model_path` untouched)
and raise `ValueError`. `loadOk` says whether the constructor call
numbered `s.loadSeq` succeeds. -/
def initOp (loadOk : Nat → Bool) (s : MgrState) (i : Nat) (path : Str) :
    Out (Option PyErr) :=
  if attrModel s i = none ∨ attrPath s i ≠ some path then
    if loadOk s.loadSeq then
      ⟨{ setPathAttr (setModelAttr s i (some ⟨path, s.loadSeq⟩)) i (some path) with
          loadSeq := s.loadSeq + 1 }, { loads := 1 }, none⟩
    else
      ⟨{ setModelAttr s i none with loadSeq := s.loadSeq + 1 },
        { loads := 1 }, some .valueError⟩
  else ⟨s, {}, none⟩

/-- `LlamaModelManager(model_path)`: `__new__` followed by `__init__`;
an exception from `__init__` propagates, the created instance staying
registered as `cls._instance`. -/
def construct (loadOk : Nat → Bool) (s : MgrState) (path : Str) :
    Out (Except PyErr Nat) :=
  match initOp loadOk (newOp s).1 (newOp s).2 path with
  | ⟨st, eff, none⟩ => ⟨st, eff, .ok (newOp s).2⟩
  | ⟨st, eff, some e⟩ => ⟨st, eff, .error e⟩

/-- `LlamaModelManager.cleanup()`: the resource-freeing body runs only when
the class attribute `cls._model` is not `None`; afterwards `cls._instance`
and `cls._model_path` are cleared. -/
def cleanupOp (s : MgrState) : Out Unit :=
  if s.clsModel ≠ none then
    ⟨{ s with clsModel := none, clsInstance := none, clsModelPath := none },
      { releases := 1, cleanups := 1 }, ()⟩
  else
    ⟨{ s with clsInstance := none, clsModelPath := none }, { cleanups := 1 }, ()⟩

/-- `LlamaModelManager.generate` invoked on instance `i`: raises
`ValueError("Model not loaded")` when `self._model is None`, otherwise
calls `create_completion` once and strips the produced text (`engineOut`
is the oracle text of that call). -/
def generateOp (s : MgrState) (i : Nat) (engineOut : Str) : Out (Except PyErr Str) :=
  match attrModel s i with
  | none => ⟨s, {}, .error .valueError⟩
  | some _ => ⟨s, { engineCalls := 1 }, .ok (pyStrip engineOut)⟩

/-- Second half of `load_model` after a first `ValueError`: cleanup then a
single retry; `e1` is the effect record of the failed first attempt. -/
def loadRetry (loadOk : Nat → Bool) (s1 : MgrState) (e1 : Effects) (path : Str) :
    Out (Option Nat) :=
  match construct loadOk (cleanupOp s1).st path with
  | ⟨st, eff, .ok h⟩ => ⟨st, (e1.add (cleanupOp s1).eff).add eff, some h⟩
  | ⟨st, eff, .error _⟩ => ⟨st, (e1.add (cleanupOp s1).eff).add eff, none⟩

/-- `process_text.load_model`: construct the manager; on `ValueError` call
`cleanup()` and retry exactly once; a second `ValueError` yields `None`. -/
def load_model (loadOk : Nat → Bool) (s : MgrState) (path : Str) : Out (Option Nat) :=
  match construct loadOk s path with
  | ⟨st, eff, .ok h⟩ => ⟨st, eff, some h⟩
  | ⟨st, eff, .error _⟩ => loadRetry loadOk st eff path

/-- The model of the handle currently registered at class level. -/
def liveModel (s : MgrState) : Option LlamaModel :=
  match s.clsInstance with
  | some i => attrModel s i
  | none => none

def allOk : Nat → Bool := fun _ => true

def noLoad : Nat → Bool := fun _ => false

def pathA : Str := "model/a.gguf".toList

def pathB : Str := "model/b.gguf".toList

def engineTextA : Str := " some generated text ".toList

theorem initOp_skip (loadOk : Nat → Bool) (s : MgrState) (i : Nat) (path : Str)
    (hm : attrModel s i ≠ none) (hp : attrPath s i = some path) :
    initOp loadOk s i path = ⟨s, {}, none⟩ := by
  unfold initOp
  rw [if_neg]
  simp [hm, hp]

theorem initOp_load_ok (loadOk : Nat → Bool) (s : MgrState) (i : Nat) (path : Str)
    (hc : attrModel s i = none ∨ attrPath s i ≠ some path)
    (hl : loadOk s.loadSeq = true) :
    initOp loadOk s i path =
      ⟨{ setPathAttr (setModelAttr s i (some ⟨path, s.loadSeq⟩)) i (some path) with
          loadSeq := s.loadSeq + 1 }, { loads := 1 }, none⟩ := by
  unfold initOp
  rw [if_pos hc, if_pos hl]

theorem initOp_load_fail (loadOk : Nat → Bool) (s : MgrState) (i : Nat) (path : Str)
    (hc : attrModel s i = none ∨ attrPath s i ≠ some path)
    (hl : loadOk s.loadSeq = false) :
    initOp loadOk s i path =
      ⟨{ setModelAttr s i none with loadSeq := s.loadSeq + 1 }, { loads := 1 },
        some .valueError⟩ := by
  unfold initOp
  rw [if_pos hc, if_neg (by simp [hl])]

theorem construct_eq_ok (loadOk : Nat → Bool) (s : MgrState) (path : Str)
    (st : MgrState) (eff : Effects)
    (h : initOp loadOk (newOp s).1 (newOp s).2 path = ⟨st, eff, none⟩) :
    construct loadOk s path = ⟨st, eff, .ok (newOp s).2⟩ := by
  unfold construct
  rw [h]

theorem construct_eq_err (loadOk : Nat → Bool) (s : MgrState) (path : Str)
    (st : MgrState) (eff : Effects) (e : PyErr)
    (h : initOp loadOk (newOp s).1 (newOp s).2 path = ⟨st, eff, some e⟩) :
    construct loadOk s path = ⟨st, eff, .error e⟩ := by
  unfold construct
  rw [h]

theorem construct_err_elim (loadOk : Nat → Bool) (s : MgrState) (path : Str)
    (e : PyErr) (h : (construct loadOk s path).res = Except.error e) :
    (construct loadOk s path).eff = { loads := 1 } ∧
      (construct loadOk s path).st =
        { setModelAttr (newOp s).1 (newOp s).2 none with
            loadSeq := (newOp s).1.loadSeq + 1 } := by
  by_cases hc : attrModel (newOp s).1 (newOp s).2 = none ∨
      attrPath (newOp s).1 (newOp s).2 ≠ some path
  · cases hl : loadOk (newOp s).1.loadSeq with
    | true =>
      rw [construct_eq_ok loadOk s path _ _ (initOp_load_ok loadOk _ _ path hc hl)] at h
      simp at h
    | false =>
      rw [construct_eq_err loadOk s path _ _ _ (initOp_load_fail loadOk _ _ path hc hl)]
      exact ⟨rfl, rfl⟩
  · push_neg at hc
    rw [construct_eq_ok loadOk s path _ _ (initOp_skip loadOk _ _ path hc.1 hc.2)] at h
    simp at h

theorem cleanupOp_st (s : MgrState) :
    (cleanupOp s).st =
      { s with clsInstance := none, clsModel := none, clsModelPath := none } := by
  unfold cleanupOp
  by_cases hm : s.clsModel ≠ none
  · rw [if_pos hm]
  · rw [if_neg hm]
    have hmm : s.clsModel = none := by simpa using hm
    cases s
    simp_all

theorem cleanupOp_eff (s : MgrState) :
    (cleanupOp s).eff.cleanups = 1 ∧ (cleanupOp s).eff.loads = 0 ∧
      (cleanupOp s).eff.engineCalls = 0 := by
  unfold cleanupOp
  by_cases hm : s.clsModel ≠ none
  · rw [if_pos hm]
    exact ⟨rfl, rfl, rfl⟩
  · rw [if_neg hm]
    exact ⟨rfl, rfl, rfl⟩

theorem setModelAttr_clsInstance (s : MgrState) (i : Nat) (v : Option LlamaModel) :
    (setModelAttr s i v).clsInstance = s.clsInstance := by
  unfold setModelAttr
  cases s.insts[i]? <;> rfl

theorem attrModel_setModelAttr (s : MgrState) (i : Nat) (v : Option LlamaModel)
    (a : InstAttrs) (h : s.insts[i]? = some a) :
    attrModel (setModelAttr s i v) i = v := by
  unfold setModelAttr attrModel
  rw [h]
  have hlt : i < s.insts.length := (List.getElem?_eq_some.mp h).1
  simp [List.getElem?_set_eq_of_lt _ hlt]

theorem newOp_insts_get (s : MgrState) (hins : s.clsInstance = none) :
    (newOp s).1.insts[(newOp s).2]? = some {} ∧
      (newOp s).1.clsInstance = some (newOp s).2 ∧
      (newOp s).1.clsModel = s.clsModel ∧ (newOp s).1.loadSeq = s.loadSeq := by
  unfold newOp
  rw [hins]
  refine ⟨?_, rfl, rfl, rfl⟩
  simp

theorem construct_fresh (loadOk : Nat → Bool) (s : MgrState) (path : Str)
    (hins : s.clsInstance = none) (hmod : s.clsModel = none) :
    (construct loadOk s path).eff = { loads := 1 } ∧
      (∀ e, (construct loadOk s path).res = Except.error e →
        liveModel (construct loadOk s path).st = none) := by
  obtain ⟨hget, hcls, hclsm, _⟩ := newOp_insts_get s hins
  have hm : attrModel (newOp s).1 (newOp s).2 = none := by
    unfold attrModel
    rw [hget, hclsm, hmod]
  have hc : attrModel (newOp s).1 (newOp s).2 = none ∨
      attrPath (newOp s).1 (newOp s).2 ≠ some path := Or.inl hm
  cases hl : loadOk (newOp s).1.loadSeq with
  | true =>
    rw [construct_eq_ok loadOk s path _ _ (initOp_load_ok loadOk _ _ path hc hl)]
    refine ⟨rfl, ?_⟩
    intro e he
    simp at he
  | false =>
    rw [construct_eq_err loadOk s path _ _ _ (initOp_load_fail loadOk _ _ path hc hl)]
    refine ⟨rfl, ?_⟩
    intro e _
    unfold liveModel
    have h1 : ({ setModelAttr (newOp s).1 (newOp s).2 none with
        loadSeq := (newOp s).1.loadSeq + 1 } : MgrState).clsInstance
        = some (newOp s).2 := by
      have := setModelAttr_clsInstance (newOp s).1 (newOp s).2 none
      simp only []
      rw [this, hcls]
    rw [h1]
    have h2 : attrModel (setModelAttr (newOp s).1 (newOp s).2 none) (newOp s).2 = none :=
      attrModel_setModelAttr (newOp s).1 (newOp s).2 none {} hget
    unfold attrModel at h2 ⊢
    simp only [] at h2 ⊢
    exact h2

/-- C7: whenever the singleton instance is live, holds a model and records
the identifier `id`, calling `LlamaModelManager(id)` again returns the very
same handle with the state unchanged and performs zero loads: the model is
not reloaded. -/
theorem acquire_same_id_no_reload (loadOk : Nat → Bool) (s : MgrState)
    (i : Nat) (id : Str) (m : LlamaModel)
    (hinst : s.clsInstance = some i)
    (hm : attrModel s i = some m)
    (hp : attrPath s i = some id) :
    construct loadOk s id = ⟨s, {}, .ok i⟩ := by
  have hnew : newOp s = (s, i) := by
    unfold newOp
    rw [hinst]
  have hskip : initOp loadOk (newOp s).1 (newOp s).2 id = ⟨s, {}, none⟩ := by
    rw [hnew]
    exact initOp_skip loadOk s i id (by simp [hm]) hp
  have := construct_eq_ok loadOk s id s {} hskip
  rw [hnew] at this
  exact this

/-- Witness for C7: load `pathA`, then acquire the same identifier again;
the second call returns the same handle, leaves the state untouched and
performs no load. -/
theorem acquire_same_id_no_reload_witness :
    construct allOk (construct allOk mgrInit pathA).st pathA
      = ⟨(construct allOk mgrInit pathA).st, {}, .ok 0⟩ :=
  acquire_same_id_no_reload allOk (construct allOk mgrInit pathA).st 0 pathA
    ⟨pathA, 0⟩ (by decide) (by decide) (by decide)

/-- C10: `cleanup()` is idempotent: a second call leaves the state of the
first; when nothing is loaded it is a no-op on the state; and it clears the
instance and identifier state so that the next construction performs a
fresh load attempt (exactly one `Llama(...)` call) regardless of the prior
state. -/
theorem release_idempotent :
    (∀ s : MgrState, (cleanupOp (cleanupOp s).st).st = (cleanupOp s).st) ∧
    (∀ s : MgrState, s.clsInstance = none → s.clsModel = none →
      s.clsModelPath = none → (cleanupOp s).st = s) ∧
    (∀ (loadOk : Nat → Bool) (s : MgrState) (path : Str),
      (cleanupOp s).st.clsInstance = none ∧
      (cleanupOp s).st.clsModelPath = none ∧
      (construct loadOk (cleanupOp s).st path).eff.loads = 1) := by
  refine ⟨?_, ?_, ?_⟩
  · intro s
    rw [cleanupOp_st, cleanupOp_st]
  · intro s h1 h2 h3
    rw [cleanupOp_st]
    cases s
    simp_all
  · intro loadOk s path
    rw [cleanupOp_st]
    refine ⟨rfl, rfl, ?_⟩
    have := construct_fresh loadOk
      { s with clsInstance := none, clsModel := none, clsModelPath := none } path
      rfl rfl
    rw [this.1]

/-- Witness for C10 at concrete states. -/
theorem release_idempotent_witness :
    (cleanupOp (cleanupOp mgrInit).st).st = (cleanupOp mgrInit).st ∧
    (cleanupOp mgrInit).st = mgrInit ∧
    (construct noLoad (cleanupOp (construct allOk mgrInit pathA).st).st pathA).eff.loads
      = 1 :=
  ⟨release_idempotent.1 mgrInit,
   release_idempotent.2.1 mgrInit rfl rfl rfl,
   (release_idempotent.2.2 noLoad (construct allOk mgrInit pathA).st pathA).2.2⟩

/-- C1 counterexample: acquire `pathA` then acquire `pathB`; the claim says
exactly one release of the old handle happens before the new load, but the
code performs zero releases and zero cleanup calls — it loads the new
engine and overwrites the instance attribute directly. -/
theorem acquire_switch_counterexample :
    (construct allOk (construct allOk mgrInit pathA).st pathB).eff.releases = 0 ∧
    (construct allOk (construct allOk mgrInit pathA).st pathB).eff.cleanups = 0 ∧
    ¬ ((construct allOk (construct allOk mgrInit pathA).st pathB).eff.releases = 1) ∧
    liveModel (construct allOk (construct allOk mgrInit pathA).st pathB).st
      = some ⟨pathB, 1⟩ := by
  refine ⟨?_, ?_, ?_, ?_⟩ <;> decide

/-- C1 (amended): acquiring a different identifier while a handle is live
performs no release at all (zero releases, zero cleanup calls): the new
engine is loaded in a single `Llama(...)` call and the old model reference
is overwritten in place, the same instance being returned. -/
theorem acquire_switch_no_release (loadOk : Nat → Bool) (s : MgrState)
    (i : Nat) (idA idB : Str) (m : LlamaModel)
    (hinst : s.clsInstance = some i)
    (_hm : attrModel s i = some m)
    (hp : attrPath s i = some idA)
    (hne : idA ≠ idB)
    (hl : loadOk s.loadSeq = true) :
    construct loadOk s idB =
      ⟨{ setPathAttr (setModelAttr s i (some ⟨idB, s.loadSeq⟩)) i (some idB) with
          loadSeq := s.loadSeq + 1 }, { loads := 1 }, .ok i⟩ := by
  have hnew : newOp s = (s, i) := by
    unfold newOp
    rw [hinst]
  have hcond : attrModel s i = none ∨ attrPath s i ≠ some idB := by
    right
    rw [hp]
    simp [hne]
  have hload := initOp_load_ok loadOk s i idB hcond hl
  have := construct_eq_ok loadOk s idB _ _ (by rw [hnew]; exact hload)
  rw [hnew] at this
  exact this

/-- Witness for C1 (amended): the switch from `pathA` to `pathB` at the
concrete reachable state. -/
theorem acquire_switch_no_release_witness :
    construct allOk (construct allOk mgrInit pathA).st pathB =
      ⟨{ setPathAttr
            (setModelAttr (construct allOk mgrInit pathA).st 0
              (some ⟨pathB, (construct allOk mgrInit pathA).st.loadSeq⟩)) 0
            (some pathB) with
          loadSeq := (construct allOk mgrInit pathA).st.loadSeq + 1 },
        { loads := 1 }, .ok 0⟩ :=
  acquire_switch_no_release allOk (construct allOk mgrInit pathA).st 0 pathA pathB
    ⟨pathA, 0⟩ (by decide) (by decide) (by decide) (by decide) (by decide)

/-- C8 counterexample: acquire `pathA`, then `cleanup()` — so no handle is
live at class level — and call `generate` on the old handle: the call does
not fail and invokes the engine once, because `generate` checks only the
instance attribute `self._model`, which cleanup never clears. -/
theorem generate_stale_counterexample :
    (generateOp (cleanupOp (construct allOk mgrInit pathA).st).st 0 engineTextA).res
      = .ok (pyStrip engineTextA) ∧
    (generateOp (cleanupOp (construct allOk mgrInit pathA).st).st 0 engineTextA).eff.engineCalls
      = 1 ∧
    liveModel (cleanupOp (construct allOk mgrInit pathA).st).st = none := by
  refine ⟨rfl, by decide, by decide⟩

/-- C8 (amended): `generate` fails with `ValueError("Model not loaded")`
and never invokes the engine exactly when the instance attribute
`self._model` of the handle it is called on resolves to `None`; there is no
comparison against the manager's live handle, so a handle whose instance
still holds a model generates successfully (one engine call) even when it
is stale. -/
theorem generate_guard (s : MgrState) (i : Nat) (out : Str) :
    (attrModel s i = none →
      generateOp s i out = ⟨s, {}, .error .valueError⟩) ∧
    (∀ m : LlamaModel, attrModel s i = some m →
      generateOp s i out = ⟨s, { engineCalls := 1 }, .ok (pyStrip out)⟩) := by
  constructor
  · intro h
    unfold generateOp
    rw [h]
  · intro m h
    unfold generateOp
    rw [h]

/-- Witness for C8 (amended): both branches at concrete states: the fresh
state fails without an engine call; the stale handle generates. -/
theorem generate_guard_witness :
    generateOp mgrInit 0 engineTextA = ⟨mgrInit, {}, .error .valueError⟩ ∧
    generateOp (cleanupOp (construct allOk mgrInit pathA).st).st 0 engineTextA
      = ⟨(cleanupOp (construct allOk mgrInit pathA).st).st,
          { engineCalls := 1 }, .ok (pyStrip engineTextA)⟩ :=
  ⟨(generate_guard mgrInit 0 engineTextA).1 (by decide),
   (generate_guard (cleanupOp (construct allOk mgrInit pathA).st).st 0 engineTextA).2
      ⟨pathA, 0⟩ (by decide)⟩

/-- C9: when the first load attempt inside `load_model` fails, exactly one
cleanup is forced and exactly one retry load is attempted (two `Llama(...)`
calls in total); if the retry also fails, the result is the `None` load
failure and no instance holding a loaded model is registered (the live
handle's model attribute is `None`). -/
theorem load_model_retry (loadOk : Nat → Bool) (s : MgrState) (path : Str)
    (e : PyErr) (h1 : (construct loadOk s path).res = Except.error e) :
    (load_model loadOk s path).eff.cleanups = 1 ∧
    (load_model loadOk s path).eff.loads = 2 ∧
    (∀ e2, (construct loadOk (cleanupOp (construct loadOk s path).st).st path).res
        = Except.error e2 →
      (load_model loadOk s path).res = none ∧
      liveModel (load_model loadOk s path).st = none) := by
  obtain ⟨heff1, _⟩ := construct_err_elim loadOk s path e h1
  have hmid1 : (cleanupOp (construct loadOk s path).st).st.clsInstance = none := by
    rw [cleanupOp_st]
  have hmid2 : (cleanupOp (construct loadOk s path).st).st.clsModel = none := by
    rw [cleanupOp_st]
  have hfresh := construct_fresh loadOk (cleanupOp (construct loadOk s path).st).st path
    hmid1 hmid2
  have hcc := cleanupOp_eff (construct loadOk s path).st
  have hunfold : load_model loadOk s path =
      loadRetry loadOk (construct loadOk s path).st (construct loadOk s path).eff path := by
    unfold load_model
    rcases hcs : construct loadOk s path with ⟨st, eff, res⟩
    rw [hcs] at h1
    cases res with
    | ok v => simp at h1
    | error e' => rfl
  obtain ⟨hcc1, hcc2, hcc3⟩ := hcc
  rw [hunfold]
  unfold loadRetry
  rcases hc2 : construct loadOk (cleanupOp (construct loadOk s path).st).st path
    with ⟨st2, eff2, res2⟩
  have heff2 : eff2 = { loads := 1 } := by
    have hf1 := hfresh.1
    rw [hc2] at hf1
    exact hf1
  cases res2 with
  | ok v =>
    refine ⟨?_, ?_, ?_⟩
    · simp only [Effects.add, heff1, heff2]
      omega
    · simp only [Effects.add, heff1, heff2]
      omega
    · intro e2 he2
      simp at he2
  | error e' =>
    refine ⟨?_, ?_, ?_⟩
    · simp only [Effects.add, heff1, heff2]
      omega
    · simp only [Effects.add, heff1, heff2]
      omega
    · intro e2 he2
      refine ⟨rfl, ?_⟩
      have hlv := hfresh.2 e'
      rw [hc2] at hlv
      exact hlv rfl

/-- Witness for C9: with an engine that always fails to load, `load_model`
performs one cleanup, two load attempts, returns `None` and leaves no
loaded model behind. -/
theorem load_model_retry_witness :
    (load_model noLoad mgrInit pathA).eff.cleanups = 1 ∧
    (load_model noLoad mgrInit pathA).eff.loads = 2 ∧
    (load_model noLoad mgrInit pathA).res = none ∧
    liveModel (load_model noLoad mgrInit pathA).st = none := by
  have h := load_model_retry noLoad mgrInit pathA PyErr.valueError rfl
  have h3 := h.2.2 PyErr.valueError rfl
  exact ⟨h.1, h.2.1, h3.1, h3.2⟩

/-- JSON values as produced by a successful `json.loads`. -/
inductive Json
  | null
  | bool (b : Bool)
  | num (n : Int)
  | str (s : Str)
  | arr (items : List Json)
  | obj (fields : List (Str × Json))

/-- Association lookup inside a parsed JSON object. -/
def lookupStr : List (Str × Json) → Str → Option Json
  | [], _ => none
  | kv :: rest, k => if kv.1 = k then some kv.2 else lookupStr rest k

/-- Python `value[key]`: `KeyError` on a missing key, `TypeError` when the
value is not a dict. -/
def jsonKey (j : Json) (k : Str) : Except PyErr Json :=
  match j with
  | .obj fields =>
    match lookupStr fields k with
    | some v => .ok v
    | none => .error .keyError
  | _ => .error .typeError

/-- Python `value.get(key, default)`: only dicts have `.get`
(`AttributeError` otherwise). -/
def jsonGetD (j : Json) (k : Str) (d : Json) : Except PyErr Json :=
  match j with
  | .obj fields => .ok ((lookupStr fields k).getD d)
  | _ => .error .attributeError

/-- Python truthiness of a parsed value. -/
def jsonTruthy : Json → Bool
  | .null => false
  | .bool b => b
  | .num n => n != 0
  | .str s => s != []
  | .arr [] => false
  | .arr (_ :: _) => true
  | .obj [] => false
  | .obj (_ :: _) => true

/-- Python `==` between a parsed value and a string: string comparison when
the value is a string, `False` otherwise (never an error). -/
def jsonEqStr (j : Json) (t : Str) : Bool :=
  match j with
  | .str s => s == t
  | _ => false

def commaSpace : Str := ", ".toList

mutual
/-- Printer standing in for Python `str()` / `json.dumps` interpolation of
parsed values into prompt text; prompt content is opaque to the generation
oracles. -/
def jsonDump : Json → Str
  | .null => "None".toList
  | .bool b => if b then "True".toList else "False".toList
  | .num n => if n < 0 then '-' :: Nat.toDigits 10 n.natAbs else Nat.toDigits 10 n.natAbs
  | .str s => '\'' :: s ++ ['\'']
  | .arr items => '[' :: jsonDumpList items ++ [']']
  | .obj fields => '{' :: jsonDumpFields fields ++ ['}']

def jsonDumpList : List Json → Str
  | [] => []
  | [j] => jsonDump j
  | j :: k :: rest => jsonDump j ++ commaSpace ++ jsonDumpList (k :: rest)

def jsonDumpFields : List (Str × Json) → Str
  | [] => []
  | [kv] => kv.1 ++ ':' :: ' ' :: jsonDump kv.2
  | kv :: kw :: rest => kv.1 ++ ':' :: ' ' :: jsonDump kv.2 ++ commaSpace
      ++ jsonDumpFields (kw :: rest)
end

/-- Python `str()` conversion as used by f-string interpolation: a string
renders as itself, other values through the printer. -/
def pyStr (j : Json) : Str :=
  match j with
  | .str s => s
  | _ => jsonDump j

/-- The parse oracle standing in for the `json` grammar: which strings
parse, and to what value. -/
abbrev Loads := Str → Option Json

/-- Python `json.loads(s)` over the parse oracle: `ValueError` on parse
failure. -/
def jsonLoads (loads : Loads) (s : Str) : Except PyErr Json :=
  match loads s with
  | some v => .ok v
  | none => .error .valueError

/-- Keyword names `json.loads` forwards to the `JSONDecoder` constructor. -/
def jsonLoadsAccepted : List Str :=
  ["cls".toList, "object_hook".toList, "parse_float".toList, "parse_int".toList,
   "parse_constant".toList, "object_pairs_hook".toList, "strict".toList]

/-- Modelled from CPython `json.loads`: keyword arguments outside the
decoder's signature raise `TypeError` before any parsing happens. -/
def jsonLoadsKw (loads : Loads) (s : Str) (kwargs : List Str) : Except PyErr Json :=
  if kwargs.all (fun k => jsonLoadsAccepted.contains k) then jsonLoads loads s
  else .error .typeError

/-- A `model.generate(...)` request as issued by the pipeline code; the
oracle answering it plays the llama engine. -/
structure GenReq where
  prompt : Str
  maxTokens : Nat
  temperature : ℚ
  topP : ℚ
  stop : List Str

abbrev GenFn := GenReq → Str

def dsvvMarker : Str := "<<CAI-DSVV-IAI>>".toList

def bestIpaOriginalKey : Str := "best_ipa_original".toList
def bestIpaTranscriptKey : Str := "best_ipa_transcript".toList
def confidenceKey : Str := "confidence".toList
def selectedAnalysisKey : Str := "selected_analysis".toList
def consolidatedAnalysisKey : Str := "consolidated_analysis".toList
def errorsKey : Str := "errors".toList
def organsKey : Str := "affected_speech_organs".toList
def typeKey : Str := "type".toList
def totalErrorsKey : Str := "total_errors".toList
def errorBreakdownKey : Str := "error_breakdown".toList
def substitutionKey : Str := "substitution".toList
def omissionKey : Str := "omission".toList
def distortionKey : Str := "distortion".toList
def additionKey : Str := "addition".toList
def mostAffectedOrgansKey : Str := "most_affected_organs".toList
def articulationAccuracyKey : Str := "articulation_accuracy".toList
def psychologicalInsightsKey : Str := "psychological_insights".toList
def speechImpactKey : Str := "speech_impact".toList
def substitutionVal : Str := "Substitution".toList
def omissionVal : Str := "Omission".toList
def distortionVal : Str := "Distortion".toList
def additionVal : Str := "Addition".toList
def unknownVal : Str := "unknown".toList
def moderateVal : Str := "Moderate".toList
def neutralInsight : Str := "No significant psychological impact noted".toList
def basedOnProfile : Str := "Based on profile: ".toList
def ensureAsciiKw : Str := "ensure_ascii".toList

/-- Prompt of `evaluate_transcriptions`; instruction literals are
abbreviated, the interpolated data and its order follow the source, and
the prompt is opaque to the generation oracle. -/
def transPrompt (ot tt o0 o1 o2 t0 t1 t2 : Str) : Str :=
  "You are a phonetics expert helping evaluate IPA transcriptions. Original Text: ".toList
    ++ ot ++ " Original IPA Options: 1. ".toList ++ o0 ++ " 2. ".toList ++ o1
    ++ " 3. ".toList ++ o2 ++ " Transcribed Text: ".toList ++ tt
    ++ " Transcribed IPA Options: 1. ".toList ++ t0 ++ " 2. ".toList ++ t1
    ++ " 3. ".toList ++ t2
    ++ " Evaluation Instructions, required JSON format delimited by ".toList
    ++ dsvvMarker
    ++ " markers. Now Think Step by Step and Give Only the Final JSON Output:".toList

def transStop : List Str :=
  ["\nNote:".toList, "\nExplanation:".toList, "\nNow give".toList, "\nOutput:".toList,
   "Note:".toList, "Explanation:".toList]

def transReq (ot tt o0 o1 o2 t0 t1 t2 : Str) : GenReq :=
  ⟨transPrompt ot tt o0 o1 o2 t0 t1 t2, 400, 0, 0.9, transStop⟩

/-- Extraction used on the verdict of `evaluate_transcriptions`: strip the
generated text, append `'}'`, split on the delimiter and take element 1
(Python raises `IndexError` when the delimiter is absent). -/
def judgeExtract (raw : Str) : Option Str :=
  (pySplit dsvvMarker (pyStrip raw ++ ['}']))[1]?

/-- Body of the `try:` block of `evaluate_transcriptions` on the raw judge
output. -/
def transTry (loads : Loads) (raw : Str) : Except PyErr Json :=
  match judgeExtract raw with
  | none => .error .indexError
  | some piece => jsonLoads loads piece

/-- `process_text.evaluate_transcriptions`: the prompt f-string indexes
both candidate lists at 0, 1, 2 (raising `IndexError` below three
elements); the judge's delimited JSON is extracted and parsed; any failure
inside the `try:` yields the fallback dict picking candidate 0 of each
list with confidence 5. -/
def evaluate_transcriptions (gen : GenFn) (loads : Loads) (ot tt : Str)
    (original_ipas transcribed_ipas : List Str) : Except PyErr Json :=
  match original_ipas, transcribed_ipas with
  | o0 :: o1 :: o2 :: _, t0 :: t1 :: t2 :: _ =>
    match transTry loads (gen (transReq ot tt o0 o1 o2 t0 t1 t2)) with
    | .ok v => .ok v
    | .error _ =>
      .ok (Json.obj
        [(bestIpaOriginalKey, Json.str o0),
         (bestIpaTranscriptKey, Json.str t0),
         (confidenceKey, Json.num 5)])
  | _, _ => .error .indexError

def braceNlStop : List Str := ["\x7d\n".toList]

/-- Prompt of `evaluate_soda_analyses` (instruction literals abbreviated);
the three analyses are interpolated in order. -/
def sodaEvalPrompt (a0 a1 a2 : Json) : Str :=
  "Evaluate these SODA analyses and select the most accurate one: Analysis Options: 1. ".toList
    ++ jsonDump a0 ++ " 2. ".toList ++ jsonDump a1 ++ " 3. ".toList ++ jsonDump a2
    ++ " Rules: completeness, accuracy; return ONLY JSON with selected_analysis, confidence, consolidated_analysis. JSON Output:".toList

/-- `process_text.evaluate_soda_analyses`: the prompt indexes
`analyses[0..2]` (`IndexError` below three elements); the judge response is
stripped, `'}'` appended, then parsed by
`json.loads(response, ensure_ascii=False)`; the `ensure_ascii` keyword is
not accepted by `json.loads`, so the call raises and the bare `except`
returns the fallback verdict selecting analysis 0 with confidence 5. -/
def evaluate_soda_analyses (gen : GenFn) (loads : Loads) (analyses : List Json) :
    Except PyErr Json :=
  match analyses with
  | a0 :: a1 :: a2 :: _ =>
    match jsonLoadsKw loads
        (pyStrip (gen ⟨sodaEvalPrompt a0 a1 a2, 500, 0.1, 0.9, braceNlStop⟩) ++ ['}'])
        [ensureAsciiKw] with
    | .ok v => .ok v
    | .error _ =>
      .ok (Json.obj
        [(selectedAnalysisKey, Json.num 0),
         (confidenceKey, Json.num 5),
         (consolidatedAnalysisKey, a0)])
  | _ => .error .indexError

/-- One articulation error of the SODA taxonomy; `etype` carries the JSON
key `"type"`. -/
structure SodaErr where
  etype : Str
  original_sound : Str
  transcribed_sound : Str
  position : Str

/-- A well-formed SODA analysis. -/
structure SodaAnalysisS where
  errors : List SodaErr
  affected_speech_organs : List Str

def sodaErrToJson (e : SodaErr) : Json :=
  Json.obj
    [(typeKey, Json.str e.etype),
     ("original_sound".toList, Json.str e.original_sound),
     ("transcribed_sound".toList, Json.str e.transcribed_sound),
     ("position".toList, Json.str e.position)]

def sodaToJson (a : SodaAnalysisS) : Json :=
  Json.obj
    [(errorsKey, Json.arr (a.errors.map sodaErrToJson)),
     (organsKey, Json.arr (a.affected_speech_organs.map Json.str))]

/-- Count of errors whose category is `t`. -/
def countErrType (errors : List SodaErr) (t : Str) : Nat :=
  (errors.filter (fun e => e.etype == t)).length

/-- `sum(1 for e in items if e["type"] == t)`: evaluates `e["type"]` for
every element left to right, the first lookup error propagating. -/
def pyCountTypeEq (items : List Json) (t : Str) : Except PyErr Nat :=
  match items with
  | [] => .ok 0
  | e :: rest =>
    match jsonKey e typeKey with
    | .error er => .error er
    | .ok v =>
      match pyCountTypeEq rest t with
      | .error er => .error er
      | .ok n => .ok ((if jsonEqStr v t then 1 else 0) + n)

/-- Lookup in the questionnaire profile dict. -/
def lookupProfile : List (Str × Str) → Str → Option Str
  | [], _ => none
  | kv :: rest, k => if kv.1 = k then some kv.2 else lookupProfile rest k

/-- Rendering of the optional profile into the prompt (falsy profiles
render as the empty-dict display). -/
def profileDump : Option (List (Str × Str)) → Str
  | none => "\x7b\x7d".toList
  | some [] => "\x7b\x7d".toList
  | some (kv :: rest) =>
    '{' :: kv.1 ++ ':' :: ' ' :: kv.2
      ++ (rest.map (fun p => commaSpace ++ p.1 ++ ':' :: ' ' :: p.2)).flatten ++ ['}']

/-- The `psychological_insights` fallback string: the neutral sentence when
the profile is falsy (absent or empty), otherwise derived from its
`speech_impact` answer. -/
def insightStr : Option (List (Str × Str)) → Str
  | none => neutralInsight
  | some [] => neutralInsight
  | some (kv :: rest) =>
    basedOnProfile ++ ((lookupProfile (kv :: rest) speechImpactKey).getD moderateVal)

/-- Prompt of `generate_soda_summary` (instruction literals abbreviated). -/
def summaryPrompt (ot tt bio bit : Str) (soda : Json)
    (profile : Option (List (Str × Str))) : Str :=
  "You are an expert in phonetics and speech-language pathology. Original Text: ".toList
    ++ ot ++ " Transcribed Text: ".toList ++ tt ++ " Original IPA: ".toList ++ bio
    ++ " Transcribed IPA: ".toList ++ bit ++ " SODA Analysis: ".toList ++ jsonDump soda
    ++ " Psychological Profile: ".toList ++ profileDump profile
    ++ " Instructions; output strictly JSON with total_errors, error_breakdown, most_affected_organs, articulation_accuracy, psychological_insights, confidence.".toList

/-- The text `generate_soda_summary` parses: generated text, stripped, with
a `'}'` appended. -/
def summaryResponse (gen : GenFn) (ot tt bio bit : Str) (soda : Json)
    (profile : Option (List (Str × Str))) : Str :=
  pyStrip (gen ⟨summaryPrompt ot tt bio bit soda profile, 300, 0, 0.9, braceNlStop⟩)
    ++ ['}']

/-- `process_text.generate_soda_summary`: one judge call; a successfully
parsed response is returned as-is; on parse failure the summary is rebuilt
deterministically from the consolidated analysis (total count, per-category
counts, organs or `["unknown"]`, accuracy `"Moderate"`, profile-derived
insight, confidence 5). Lookup errors inside the fallback (malformed
consolidated analysis) propagate as exceptions, a non-list `errors` value
collapsing to `TypeError`. -/
def generate_soda_summary (gen : GenFn) (loads : Loads) (ot tt bio bit : Str)
    (soda_analysis : Json) (profile : Option (List (Str × Str))) :
    Except PyErr Json :=
  match jsonLoads loads (summaryResponse gen ot tt bio bit soda_analysis profile) with
  | .ok v => .ok v
  | .error _ =>
    match jsonKey soda_analysis errorsKey with
    | .error e => .error e
    | .ok errsJ =>
      match errsJ with
      | Json.arr items =>
        match pyCountTypeEq items substitutionVal, pyCountTypeEq items omissionVal,
            pyCountTypeEq items distortionVal, pyCountTypeEq items additionVal with
        | .ok subCount, .ok omCount, .ok disCount, .ok addCount =>
          match jsonKey soda_analysis organsKey with
          | .error e => .error e
          | .ok organsJ =>
            .ok (Json.obj
              [(totalErrorsKey, Json.num items.length),
               (errorBreakdownKey, Json.obj
                  [(substitutionKey, Json.num subCount),
                   (omissionKey, Json.num omCount),
                   (distortionKey, Json.num disCount),
                   (additionKey, Json.num addCount)]),
               (mostAffectedOrgansKey,
                  if jsonTruthy organsJ then organsJ else Json.arr [Json.str unknownVal]),
               (articulationAccuracyKey, Json.str moderateVal),
               (psychologicalInsightsKey, Json.str (insightStr profile)),
               (confidenceKey, Json.num 5)])
        | .error e, _, _, _ => .error e
        | _, .error e, _, _ => .error e
        | _, _, .error e, _ => .error e
        | _, _, _, .error e => .error e
      | _ => .error .typeError

theorem jsonLoadsKw_ensureAscii (loads : Loads) (s : Str) :
    jsonLoadsKw loads s [ensureAsciiKw] = .error .typeError := by
  unfold jsonLoadsKw
  rw [if_neg (by decide)]

theorem sodaEvalFallbackAux (gen : GenFn) (loads : Loads) (a0 a1 a2 : Json)
    (rest : List Json) :
    evaluate_soda_analyses gen loads (a0 :: a1 :: a2 :: rest) =
      .ok (Json.obj
        [(selectedAnalysisKey, Json.num 0),
         (confidenceKey, Json.num 5),
         (consolidatedAnalysisKey, a0)]) := by
  unfold evaluate_soda_analyses
  simp only [jsonLoadsKw_ensureAscii]

def genEmpty : GenFn := fun _ => []

def loadsNone : Loads := fun _ => none

def loadsEmptyObj : Loads := fun _ => some (Json.obj [])

/-- C2: whenever a judge call is reached (both candidate lists carry the
three elements its prompt interpolates) and the structured output fails to
parse, each judge returns exactly its fallback — the candidate at index 0
and the fixed neutral confidence 5 — and no exception reaches the caller
(the result is an `ok` value). For the SODA judge the parse failure is
unconditional, so its half needs no parse hypothesis. -/
theorem judge_parse_failure_fallback (gen : GenFn) (loads : Loads) (ot tt : Str)
    (o0 o1 o2 t0 t1 t2 : Str) (orest trest : List Str)
    (a0 a1 a2 : Json) (arest : List Json) (e : PyErr)
    (hpf : transTry loads (gen (transReq ot tt o0 o1 o2 t0 t1 t2)) = .error e) :
    evaluate_transcriptions gen loads ot tt (o0 :: o1 :: o2 :: orest)
        (t0 :: t1 :: t2 :: trest) =
      .ok (Json.obj
        [(bestIpaOriginalKey, Json.str o0),
         (bestIpaTranscriptKey, Json.str t0),
         (confidenceKey, Json.num 5)]) ∧
    evaluate_soda_analyses gen loads (a0 :: a1 :: a2 :: arest) =
      .ok (Json.obj
        [(selectedAnalysisKey, Json.num 0),
         (confidenceKey, Json.num 5),
         (consolidatedAnalysisKey, a0)]) := by
  constructor
  · unfold evaluate_transcriptions
    simp only [hpf]
  · exact sodaEvalFallbackAux gen loads a0 a1 a2 arest

def ipaO0 : Str := "/ab/".toList
def ipaO1 : Str := "/ac/".toList
def ipaO2 : Str := "/ad/".toList
def ipaT0 : Str := "/tb/".toList
def ipaT1 : Str := "/tc/".toList
def ipaT2 : Str := "/td/".toList
def textO : Str := "I saw Sam sitting on a bus".toList
def textT : Str := "I saw Tham thitting on a buth".toList

/-- Witness for C2: a judge whose output is empty (no delimiter, parse
fails) on concrete three-element candidate lists. -/
theorem judge_parse_failure_fallback_witness :
    evaluate_transcriptions genEmpty loadsNone textO textT [ipaO0, ipaO1, ipaO2]
        [ipaT0, ipaT1, ipaT2] =
      .ok (Json.obj
        [(bestIpaOriginalKey, Json.str ipaO0),
         (bestIpaTranscriptKey, Json.str ipaT0),
         (confidenceKey, Json.num 5)]) ∧
    evaluate_soda_analyses genEmpty loadsNone [Json.null, Json.null, Json.null] =
      .ok (Json.obj
        [(selectedAnalysisKey, Json.num 0),
         (confidenceKey, Json.num 5),
         (consolidatedAnalysisKey, Json.null)]) :=
  judge_parse_failure_fallback genEmpty loadsNone textO textT ipaO0 ipaO1 ipaO2
    ipaT0 ipaT1 ipaT2 [] [] Json.null Json.null Json.null [] PyErr.indexError rfl

/-- C3 counterexample: on a one-element analyses list the function does not
return the fallback verdict at all: the prompt f-string indexes
`analyses[1]` and raises `IndexError`, so the claim's "at least one
element" bound is too weak. -/
theorem soda_eval_singleton_counterexample :
    evaluate_soda_analyses genEmpty loadsEmptyObj [Json.null] = .error .indexError ∧
    ¬ (evaluate_soda_analyses genEmpty loadsEmptyObj [Json.null] =
        .ok (Json.obj
          [(selectedAnalysisKey, Json.num 0),
           (confidenceKey, Json.num 5),
           (consolidatedAnalysisKey, Json.null)])) :=
  ⟨rfl, fun h => Except.noConfusion h⟩

/-- C3 (amended: at least three elements instead of one): for every
generation oracle and every parse oracle — including ones that parse every
string successfully — `evaluate_soda_analyses` returns exactly the fallback
verdict `\x7bselected_analysis: 0, confidence: 5, consolidated_analysis:
analyses[0]\x7d`, because its `json.loads` call passes the unsupported
`ensure_ascii` keyword, so the parse branch always raises and the bare
`except` always takes the fallback. -/
theorem soda_eval_always_fallback (gen : GenFn) (loads : Loads)
    (a0 a1 a2 : Json) (rest : List Json) :
    evaluate_soda_analyses gen loads (a0 :: a1 :: a2 :: rest) =
      .ok (Json.obj
        [(selectedAnalysisKey, Json.num 0),
         (confidenceKey, Json.num 5),
         (consolidatedAnalysisKey, a0)]) :=
  sodaEvalFallbackAux gen loads a0 a1 a2 rest

/-- C4: judge-verdict extraction of `evaluate_transcriptions`. (i) When the
stripped generated text is noise, the first delimiter, a payload, the next
delimiter and trailing noise, extraction returns exactly the payload
between the first marker pair (the `findSub` hypotheses pin the first two
delimiter occurrences to those positions). (ii) When generation is
truncated so that the close marker is missing and the payload lacks only
its final `'}'`, the unconditionally appended `'}'` restores it and
extraction returns the completed payload, which therefore parses whenever
the untruncated payload does. -/
theorem judge_extract_delimited (pre payload post preT body raw rawT : Str)
    (h1 : pyStrip raw = pre ++ dsvvMarker ++ (payload ++ dsvvMarker ++ post))
    (h2 : findSub dsvvMarker
        (pre ++ dsvvMarker ++ (payload ++ dsvvMarker ++ (post ++ ['}'])))
      = some pre.length)
    (h3 : findSub dsvvMarker (payload ++ dsvvMarker ++ (post ++ ['}']))
      = some payload.length)
    (hT1 : pyStrip rawT = preT ++ dsvvMarker ++ body)
    (hT2 : findSub dsvvMarker (preT ++ dsvvMarker ++ (body ++ ['}']))
      = some preT.length)
    (hT3 : findSub dsvvMarker (body ++ ['}']) = none) :
    judgeExtract raw = some payload ∧ judgeExtract rawT = some (body ++ ['}']) := by
  have hm : dsvvMarker ≠ [] := by decide
  constructor
  · unfold judgeExtract
    have hre : pyStrip raw ++ ['}']
        = pre ++ dsvvMarker ++ (payload ++ dsvvMarker ++ (post ++ ['}'])) := by
      rw [h1]
      simp [List.append_assoc]
    rw [hre, pySplit_cons dsvvMarker pre _ hm h2,
      pySplit_cons dsvvMarker payload _ hm h3]
    simp
  · unfold judgeExtract
    have hre : pyStrip rawT ++ ['}'] = preT ++ dsvvMarker ++ (body ++ ['}']) := by
      rw [hT1]
      simp [List.append_assoc]
    rw [hre, pySplit_cons dsvvMarker preT _ hm hT2, pySplit_of_none dsvvMarker _ hm hT3]
    simp

def noiseA : Str := "noise".toList

def payloadA : Str := " confidence: 5 ".toList

def tailA : Str := "trailing noise".toList

def bodyT : Str := " confidence: 5".toList

def rawFull : Str := noiseA ++ dsvvMarker ++ payloadA ++ dsvvMarker ++ tailA

def rawTrunc : Str := dsvvMarker ++ bodyT

/-- Witness for C4 at concrete texts: a delimited verdict with noise on
both sides, and a truncated verdict missing the close marker and final
`'}'`. -/
theorem judge_extract_delimited_witness :
    judgeExtract rawFull = some payloadA ∧
    judgeExtract rawTrunc = some (bodyT ++ ['}']) :=
  judge_extract_delimited noiseA payloadA tailA [] bodyT rawFull rawTrunc
    (by decide) (by decide) (by decide) (by decide) (by decide) (by decide)

theorem pyCountTypeEq_map (errors : List SodaErr) (t : Str) :
    pyCountTypeEq (errors.map sodaErrToJson) t = .ok (countErrType errors t) := by
  induction errors with
  | nil => rfl
  | cons e rest ih =>
    have hk : jsonKey (sodaErrToJson e) typeKey = Except.ok (Json.str e.etype) := rfl
    simp only [List.map_cons, pyCountTypeEq, hk, ih]
    unfold countErrType
    simp only [List.filter_cons]
    by_cases hb : (e.etype == t) = true
    · simp [jsonEqStr, hb, countErrType, Nat.add_comm]
    · simp [jsonEqStr, hb, countErrType]

/-- C5: when the final-summary response fails to parse, the returned
summary is derived from the consolidated analysis: `total_errors` is the
length of its errors list and every `error_breakdown` field is the exact
per-category count; organs, accuracy, insight and confidence carry the
fixed fallback values. -/
theorem summary_fallback_derived (gen : GenFn) (loads : Loads)
    (ot tt bio bit : Str) (a : SodaAnalysisS) (profile : Option (List (Str × Str)))
    (hpf : loads (summaryResponse gen ot tt bio bit (sodaToJson a) profile) = none) :
    generate_soda_summary gen loads ot tt bio bit (sodaToJson a) profile =
      .ok (Json.obj
        [(totalErrorsKey, Json.num a.errors.length),
         (errorBreakdownKey, Json.obj
            [(substitutionKey, Json.num (countErrType a.errors substitutionVal)),
             (omissionKey, Json.num (countErrType a.errors omissionVal)),
             (distortionKey, Json.num (countErrType a.errors distortionVal)),
             (additionKey, Json.num (countErrType a.errors additionVal))]),
         (mostAffectedOrgansKey,
            if a.affected_speech_organs = [] then Json.arr [Json.str unknownVal]
            else Json.arr (a.affected_speech_organs.map Json.str)),
         (articulationAccuracyKey, Json.str moderateVal),
         (psychologicalInsightsKey, Json.str (insightStr profile)),
         (confidenceKey, Json.num 5)]) := by
  have hl : jsonLoads loads (summaryResponse gen ot tt bio bit (sodaToJson a) profile)
      = .error .valueError := by
    unfold jsonLoads
    rw [hpf]
  unfold generate_soda_summary
  rw [hl]
  have hk : jsonKey (sodaToJson a) errorsKey
      = Except.ok (Json.arr (a.errors.map sodaErrToJson)) := rfl
  have ho : jsonKey (sodaToJson a) organsKey
      = Except.ok (Json.arr (a.affected_speech_organs.map Json.str)) := rfl
  simp only [hk, ho, pyCountTypeEq_map, List.length_map]
  cases haso : a.affected_speech_organs with
  | nil => rfl
  | cons x rest => rfl

def tongueStr : Str := "tongue".toList

def posOne : Str := "1".toList

def sErr1 : SodaErr := ⟨substitutionVal, "s".toList, "th".toList, posOne⟩

def sErr2 : SodaErr := ⟨substitutionVal, "s".toList, "th".toList, "2".toList⟩

def sErr3 : SodaErr := ⟨omissionVal, "t".toList, [], "3".toList⟩

def sodaW : SodaAnalysisS := ⟨[sErr1, sErr2, sErr3], [tongueStr]⟩

/-- Witness for C5, matching the specification example: two Substitution
errors and one Omission error give a breakdown of exactly 2, 1, 0, 0 and a
total of 3. -/
theorem summary_fallback_derived_witness :
    generate_soda_summary genEmpty loadsNone textO textT ipaO0 ipaT0
        (sodaToJson sodaW) none =
      .ok (Json.obj
        [(totalErrorsKey, Json.num 3),
         (errorBreakdownKey, Json.obj
            [(substitutionKey, Json.num 2),
             (omissionKey, Json.num 1),
             (distortionKey, Json.num 0),
             (additionKey, Json.num 0)]),
         (mostAffectedOrgansKey, Json.arr [Json.str tongueStr]),
         (articulationAccuracyKey, Json.str moderateVal),
         (psychologicalInsightsKey, Json.str neutralInsight),
         (confidenceKey, Json.num 5)]) := by
  rw [summary_fallback_derived genEmpty loadsNone textO textT ipaO0 ipaT0 sodaW none rfl]
  rfl

def slashSpace : Str := "/ ".toList

def spaceSlash : Str := " /".toList

def slashStr : Str := "/".toList

/-- Prompt of `generate_ipa` (instruction literals abbreviated). -/
def ipaPrompt (text : Str) : Str :=
  "You are an expert phonetician. Convert this text to International Phonetic Alphabets (IPA): Text: ".toList
    ++ text
    ++ " Rules: 1. Use /slashes/ 2. Return ONLY the IPA between / /. IPA:".toList

def ipaStop : List Str := ["\n".toList, "Text:".toList]

def ipaReq (text : Str) : GenReq := ⟨ipaPrompt text, 100, 0.1, 0.9, ipaStop⟩

/-- One loop iteration of `generate_ipa` on the stripped response: slice
between the first `"/ "` and the last `" /"`; otherwise, when a slash is
present, take `split("/")[-2]` (when at least two slashes) or
`strip("/")`, wrapping a truthy result in slashes; `none` when the
iteration falls through. -/
def genIpaAttempt (response : Str) : Option Str :=
  let ipa_start := pyFind slashSpace response
  let ipa_end := pyRFind spaceSlash response
  if ipa_start ≠ -1 ∧ ipa_end ≠ -1 ∧ ipa_start < ipa_end then
    some (pySlice response (ipa_start + 1) (ipa_end + 1))
  else if hasSub slashStr response then
    let parts := pySplit slashStr response
    let ipa :=
      if pyCount slashStr response ≥ 2 then (parts[parts.length - 2]?).getD []
      else pyStripChars slashStr response
    if ipa ≠ [] then some ('/' :: ipa ++ ['/']) else none
  else none

/-- `process_text.generate_ipa`: empty text gives `None`; otherwise two
attempts, `resp n` being the manager's generate result for attempt `n`
on the fixed prompt. -/
def generate_ipa (resp : Nat → Str) (text : Str) : Option Str :=
  if text = [] then none
  else
    match genIpaAttempt (pyStrip (resp 0)) with
    | some r => some r
    | none => genIpaAttempt (pyStrip (resp 1))

def errorsMarker : Str := "<<ERRORS>>".toList

def organsMarker : Str := "<<ORGANS>>".toList

/-- First prompt of `analyze_articulation_errors` (literals abbreviated). -/
def errPrompt (ot oipa tt tipa : Str) : Str :=
  "Analyze the transcription for articulation errors using the SODA framework. Original Text: ".toList
    ++ ot ++ " Original IPA: ".toList ++ oipa ++ " Transcribed Text: ".toList ++ tt
    ++ " Transcribed IPA: ".toList ++ tipa
    ++ " Instructions; output ONLY the errors list in JSON wrapped between ".toList
    ++ errorsMarker ++ " tags.".toList

/-- Second prompt of `analyze_articulation_errors` (literals abbreviated). -/
def organsPrompt (errsDump : Str) : Str :=
  "You are an expert in phonetics and speech articulation. Errors: ".toList ++ errsDump
    ++ " Possible Organs: lips, teeth, tongue, palate, velum, glottis; wrap the JSON between ".toList
    ++ organsMarker ++ " tags.".toList

/-- `process_text.analyze_articulation_errors` over a model's generation
oracle: two chained calls, a parse failure at either sub-step degrading to
an empty structure; the `errors_data["errors"]` lookup sits outside any
`try:` and its failure propagates; the second call runs only when the
errors list is truthy. -/
def analyze_articulation_errors (gen : GenFn) (loads : Loads)
    (ot oipa tt tipa : Str) : Except PyErr Json :=
  match
    (match loads (gen ⟨errPrompt ot oipa tt tipa, 1000, 0, 0.9, [errorsMarker]⟩) with
      | some v => v
      | none => Json.obj [(errorsKey, Json.arr [])]) with
  | errors_data =>
    match jsonKey errors_data errorsKey with
    | .error e => .error e
    | .ok errlist =>
      match
        (if jsonTruthy errlist then
          match loads (gen ⟨organsPrompt (jsonDump errlist), 300, 0, 0.9, [organsMarker]⟩) with
          | some v => v
          | none => Json.obj [(organsKey, Json.arr [])]
        else Json.obj [(organsKey, Json.arr [])]) with
      | organs_data =>
        match jsonGetD errors_data errorsKey (Json.arr []),
            jsonGetD organs_data organsKey (Json.arr []) with
        | .ok e, .ok o => .ok (Json.obj [(errorsKey, e), (organsKey, o)])
        | .error e, _ => .error e
        | _, .error e => .error e

/-- Oracles of one pipeline run: the raw transcription text, per-model load
success, the engine text per (model index, input text, attempt) for the IPA
stage, per-request engine text for the three SODA generators and for the
judge model, and the parse oracle. -/
structure PipeEnv where
  rawText : Str
  loaded : Nat → Bool
  ipaResp : Nat → Str → Nat → Str
  errResp : Nat → GenFn
  judgeResp : GenFn
  loads : Loads

/-- Abort and exception outcomes of `process_inputs`: `aborted msg` for the
`st.error(msg); return None` paths, `raised e` for uncaught exceptions. -/
inductive PipeFail
  | aborted (msg : Str)
  | raised (e : PyErr)

/-- The fully-populated result dictionary of `process_inputs`. -/
structure Results where
  original_text : Str
  transcribed_text : Str
  original_ipas : List Str
  transcribed_ipas : List Str
  evaluation : Json
  soda_analyses : List Json
  soda_evaluation : Json
  soda_summary : Json

def abortTranscription : Str := "Audio transcription failed".toList

def abortModels : Str := "Some models failed to load".toList

def abortInsufficient : Str := "Insufficient IPA variants generated".toList

/-- Candidate collection of `process_inputs` for one text: iterate
`models[:3]` and keep only truthy results (non-`None` and non-empty). -/
def collectIpas (env : PipeEnv) (numModels : Nat) (text : Str) : List Str :=
  (List.range (min 3 numModels)).filterMap (fun i =>
    match generate_ipa (env.ipaResp i text) text with
    | some ipa => if ipa ≠ [] then some ipa else none
    | none => none)

/-- `app.process_inputs`: transcription, model loading, IPA candidate
generation with the three-candidate quorum gate, judge evaluation, SODA
analyses, SODA consolidation and the final summary, aborting with the
matching message on each guard and propagating uncaught exceptions. -/
def process_inputs (env : PipeEnv) (original_text : Str) (model_paths : List Str) :
    Except PipeFail Results :=
  if clean_text env.rawText = [] then .error (.aborted abortTranscription)
  else if !((List.range model_paths.length).all env.loaded) then
    .error (.aborted abortModels)
  else if (collectIpas env model_paths.length original_text).length < 3 ∨
      (collectIpas env model_paths.length (clean_text env.rawText)).length < 3 then
    .error (.aborted abortInsufficient)
  else if model_paths.length ≤ 3 then .error (.raised .indexError)
  else
    match evaluate_transcriptions env.judgeResp env.loads original_text
        (clean_text env.rawText) (collectIpas env model_paths.length original_text)
        (collectIpas env model_paths.length (clean_text env.rawText)) with
    | .error e => .error (.raised e)
    | .ok evaluation =>
      match jsonKey evaluation bestIpaOriginalKey,
          jsonKey evaluation bestIpaTranscriptKey with
      | .ok bio, .ok bit =>
        match (List.range (min 3 model_paths.length)).mapM (fun i =>
            analyze_articulation_errors (env.errResp i) env.loads original_text
              (pyStr bio) (clean_text env.rawText) (pyStr bit)) with
        | .error e => .error (.raised e)
        | .ok soda_analyses =>
          match evaluate_soda_analyses env.judgeResp env.loads soda_analyses with
          | .error e => .error (.raised e)
          | .ok soda_evaluation =>
            match jsonKey soda_evaluation consolidatedAnalysisKey with
            | .error e => .error (.raised e)
            | .ok consolidated =>
              match generate_soda_summary env.judgeResp env.loads original_text
                  (clean_text env.rawText) (pyStr bio) (pyStr bit) consolidated none with
              | .error e => .error (.raised e)
              | .ok soda_summary =>
                .ok ⟨original_text, clean_text env.rawText,
                  collectIpas env model_paths.length original_text,
                  collectIpas env model_paths.length (clean_text env.rawText),
                  evaluation, soda_analyses, soda_evaluation, soda_summary⟩
      | .error e, _ => .error (.raised e)
      | _, .error e => .error (.raised e)

/-- C6: when transcription and model loading succeed but fewer than three
original or fewer than three transcribed IPA candidates parse, the run
aborts with the insufficient-candidates failure before any judge call —
for every judge oracle, since the result does not depend on it — and no
partial result is produced. -/
theorem quorum_abort (env : PipeEnv) (original_text : Str) (model_paths : List Str)
    (h1 : clean_text env.rawText ≠ [])
    (h2 : (List.range model_paths.length).all env.loaded = true)
    (h3 : (collectIpas env model_paths.length original_text).length < 3 ∨
      (collectIpas env model_paths.length (clean_text env.rawText)).length < 3) :
    process_inputs env original_text model_paths =
      .error (.aborted abortInsufficient) := by
  unfold process_inputs
  rw [if_neg h1, if_neg (by simp [h2]), if_pos h3]

def envQuorum : PipeEnv :=
  { rawText := "hello".toList
    loaded := fun _ => true
    ipaResp := fun _ _ _ => []
    errResp := fun _ _ => []
    judgeResp := fun _ => []
    loads := fun _ => none }

def fourPaths : List Str := [pathA, pathA, pathA, pathA]

/-- Witness for C6: an engine that never produces a slash yields zero
candidates, and the run aborts with the insufficient-candidates message. -/
theorem quorum_abort_witness :
    process_inputs envQuorum textO fourPaths = .error (.aborted abortInsufficient) :=
  quorum_abort envQuorum textO fourPaths (by decide) (by decide) (by decide)
